import Mathlib

/-!
Verification of the password_manager repository core: a shallow embedding of
`vault_core.py` (key derivation, vault encryption/decryption, persistence) and
`face_auth.py` (liveness state machine, quick PIN, face verification, lockout),
together with proofs of the specified properties.

Cryptographic primitives (SHA-256, PBKDF2-HMAC, Fernet authenticated
encryption) are modelled symbolically: digests and tokens are free
constructors, so distinct inputs give distinct outputs and a token decrypts
only under its own key.  This is the standard idealisation of collision-free
hashing and authenticated encryption.  File I/O is modelled by explicit state
passing (the contents an operation reads/writes), and `save_vault` by the
trace of file-system operations it performs.
-/

/-- A vault mapping as serialised by `json.dumps`: an insertion-ordered list of
`(service, (username, password))` entries, mirroring a Python `dict` of
credential pairs. -/
def VaultDict := List (String × String × String)
deriving DecidableEq, Inhabited

/-- Symbolic byte strings flowing through `vault_core.py`.  `raw` stands for
arbitrary (e.g. corrupted) bytes; `utf8` for `str.encode()`; `sha256` for a
SHA-256 digest (hex or raw — the encoding is folded into the constructor);
`b64url` for `base64.urlsafe_b64encode`; `jsonOf` for `json.dumps(d).encode()`;
`token key pt` for a Fernet token of plaintext `pt` under `key`.  Constructor
freeness is the collision-freeness / authenticity idealisation. -/
inductive Bytes where
  | raw : String → Bytes
  | utf8 : String → Bytes
  | sha256 : Bytes → Bytes
  | b64url : Bytes → Bytes
  | jsonOf : VaultDict → Bytes
  | token : Bytes → Bytes → Bytes
deriving DecidableEq

/-- `hashlib.sha256(master_password.encode()).hexdigest()` as used by
`save_master_password` / `verify_master_password` (vault_core.py lines 14, 24).
The hex encoding is injective, so it is folded into the digest constructor. -/
def sha256_hexdigest (pw : String) : Bytes :=
  Bytes.sha256 (Bytes.utf8 pw)

/-- `derive_key` (vault_core.py lines 27-29):
`base64.urlsafe_b64encode(hashlib.sha256(master_password.encode()).digest())`. -/
def derive_key (master_password : String) : Bytes :=
  Bytes.b64url (Bytes.sha256 (Bytes.utf8 master_password))

/-- `save_master_password` (vault_core.py lines 13-16): writes the hex digest
of the passphrase to `master.hash`.  The returned value is the new contents of
that file. -/
def save_master_password (master_password : String) : Option Bytes :=
  some (sha256_hexdigest master_password)

/-- `verify_master_password` (vault_core.py lines 18-25).  The `stored`
argument is the contents of `master.hash` (`none` when the file does not
exist).  Returns the boolean outcome together with the (possibly updated) file
contents.  A digest contains no surrounding whitespace, so `.strip()` is the
identity on it. -/
def verify_master_password (master_password : String) (stored : Option Bytes) :
    Bool × Option Bytes :=
  match stored with
  | none => (true, save_master_password master_password)
  | some stored_hash =>
      (decide (stored_hash = sha256_hexdigest master_password), some stored_hash)

/-- `encrypt_data` (vault_core.py lines 31-35): `Fernet(key).encrypt` of
`json.dumps(data).encode()`. -/
def encrypt_data (data : VaultDict) (key : Bytes) : Bytes :=
  Bytes.token key (Bytes.jsonOf data)

/-- The message of the `ValueError` raised by `decrypt_data`
(vault_core.py line 44). -/
def decryptErrorMsg : String := "Incorrect master password or corrupted file."

/-- `decrypt_data` (vault_core.py lines 37-44): Fernet decryption followed by
`json.loads`; any failure (authentication failure under the wrong key,
non-token bytes, or a plaintext that is not the serialisation of a mapping) is
caught and re-raised as a single `ValueError`. -/
def decrypt_data (enc_data : Bytes) (key : Bytes) : Except String VaultDict :=
  match enc_data with
  | Bytes.token k pt =>
      if k = key then
        match pt with
        | Bytes.jsonOf d => Except.ok d
        | _ => Except.error decryptErrorMsg
      else Except.error decryptErrorMsg
  | _ => Except.error decryptErrorMsg

/-- `VAULT_FILE` (vault_core.py line 8). -/
def VAULT_FILE : String := "password_vault.enc"

/-- A file-system operation performed by the persistence layer. -/
inductive FileOp where
  | write : String → Bytes → FileOp
  | rename : String → String → FileOp
deriving DecidableEq

/-- `save_vault` (vault_core.py lines 54-58), modelled by the trace of
file-system operations it performs: it encrypts and then writes the ciphertext
directly to `VAULT_FILE` with a single `open(..., "wb").write`. -/
def save_vault (data : VaultDict) (key : Bytes) : List FileOp :=
  [FileOp.write VAULT_FILE (encrypt_data data key)]

/-- The spec's claimed shape for an atomic save (spec §4.2
"write-to-temp-then-rename"): write the ciphertext to a temporary file distinct
from the vault file, then rename it into place.  Stated from the spec's words,
to be compared against `save_vault` as the source defines it. -/
def save_vault_spec_atomic (trace : List FileOp) : Prop :=
  ∃ tmp ct, tmp ≠ VAULT_FILE ∧
    trace = [FileOp.write tmp ct, FileOp.rename tmp VAULT_FILE]

/-- C1: for every mapping `m` (the empty mapping included) and every key
produced by `derive_key`, decrypting the encryption of `m` under the same key
returns exactly `m`. -/
theorem encrypt_decrypt_roundtrip (m : VaultDict) (p : String) :
    decrypt_data (encrypt_data m (derive_key p)) (derive_key p) = Except.ok m := by
  simp [decrypt_data, encrypt_data]

/-- C2: decrypting under a key different from the encryption key always yields
the integrity error `"Incorrect master password or corrupted file."` and never
a mapping; the same error results from arbitrary (tampered / non-token)
bytes. -/
theorem decrypt_wrong_key_fails (m : VaultDict) (k1 k2 : Bytes) (s : String)
    (hne : k1 ≠ k2) :
    decrypt_data (encrypt_data m k1) k2 = Except.error decryptErrorMsg ∧
    decrypt_data (Bytes.raw s) k2 = Except.error decryptErrorMsg := by
  constructor
  · simp [decrypt_data, encrypt_data, hne]
  · simp [decrypt_data]

/-- Witness for C2 at concrete inputs: the keys derived from `"a"` and `"b"`
differ, and decryption of an empty-vault ciphertext under the other key
fails with the integrity error. -/
theorem decrypt_wrong_key_fails_witness :
    derive_key "a" ≠ derive_key "b" ∧
    decrypt_data (encrypt_data [] (derive_key "a")) (derive_key "b") =
      Except.error decryptErrorMsg ∧
    decrypt_data (Bytes.raw "junk") (derive_key "b") =
      Except.error decryptErrorMsg := by
  refine ⟨by decide, ?_⟩
  exact decrypt_wrong_key_fails [] (derive_key "a") (derive_key "b") "junk" (by decide)

/-- C4 counterexample: the trace of `save_vault` on a concrete input is a
single direct write of the ciphertext to `VAULT_FILE`; it is not of the
write-to-temp-then-rename shape the claim asserts. -/
theorem save_vault_not_atomic :
    ¬ save_vault_spec_atomic (save_vault [] (derive_key "pw")) := by
  rintro ⟨tmp, ct, -, h⟩
  simp [save_vault] at h

/-- C4 amended: `save_vault` encrypts and writes the ciphertext directly to
the vault file in one write; it performs no temporary-file write and no
rename, so the replacement is not atomic. -/
theorem save_vault_direct_write (d : VaultDict) (k : Bytes) :
    save_vault d k = [FileOp.write VAULT_FILE (encrypt_data d k)] := rfl

/-- C5: with no stored verifier, `verify_master_password p` returns true and
stores the digest of `p`; with a stored verifier `v`, it returns true iff the
digest of `p` equals `v`, leaves the verifier unchanged, and (being a total
function) never raises for a wrong passphrase. -/
theorem verify_master_password_spec (p : String) (v : Bytes) :
    (verify_master_password p none).1 = true ∧
    (verify_master_password p none).2 = some (sha256_hexdigest p) ∧
    ((verify_master_password p (some v)).1 = true ↔ v = sha256_hexdigest p) ∧
    (verify_master_password p (some v)).2 = some v := by
  refine ⟨rfl, rfl, ?_, rfl⟩
  simp [verify_master_password]

/-!
## face_auth.py — FaceAuthenticator

Thresholds, EAR values and confidences are Python floats used only in order
comparisons and affine arithmetic; they are modelled exactly by rationals.
The vision pipeline (`cv2`, `face_recognition`) is an external capability: a
frame is represented by the observations the pipeline yields for it (landmark
availability and eye-aspect-ratios for liveness; detection outcome and best
face distance for matching).  Formatted message strings are modelled by
inductive message values carrying the same numeric payloads.
-/

/-- `self.blink_state` (face_auth.py line 68): `"open"` / `"closed"`. -/
inductive BlinkState where
  | opened
  | closed
deriving DecidableEq

/-- What the vision pipeline yields for one frame when checking liveness
(face_auth.py lines 266-288): an unexpected processing error (the `except`
path, line 309), no face landmarks (line 273), fewer than six points for an
eye (line 282), or the two computed eye-aspect-ratios (lines 286-287,
`_calculate_ear`'s own fallback folded into the observed values). -/
inductive LivenessObs where
  | procError : String → LivenessObs
  | noFace : LivenessObs
  | eyesNotDetected : LivenessObs
  | earFrame : ℚ → ℚ → LivenessObs
deriving DecidableEq

/-- The message component of `check_liveness_frame`'s result, one constructor
per return site (face_auth.py lines 256-311). -/
inductive LivenessMsg where
  | livenessDisabled
  | alreadyVerified
  | skipped
  | noFaceForLiveness
  | eyesNotDetected
  | verifiedBlinks : Int → LivenessMsg
  | blinkMore : Int → LivenessMsg
  | skippedError : String → LivenessMsg
deriving DecidableEq

/-- Outcome of `detect_and_encode_face` followed by
`face_recognition.face_distance` (face_auth.py lines 364-389, 438-439): an
error string (no face, multiple faces, encoding/load failure, or an unexpected
exception), or the minimum distance of the frame's encoding to the enrolled
encodings. -/
inductive DetectResult where
  | err : String → DetectResult
  | ok : ℚ → DetectResult
deriving DecidableEq

/-- A frame as seen by the core: the liveness observation and the detection
outcome the pipeline computes for it. -/
structure FrameObs where
  liveness : LivenessObs
  detect : DetectResult
deriving DecidableEq

/-- One `_log_attempt` record (face_auth.py lines 502-513), minus the wall
clock timestamp. -/
structure AuditEntry where
  success : Bool
  confidence : ℚ
  threshold : ℚ
  pin_unlock : Bool
deriving DecidableEq

/-- `hashlib.pbkdf2_hmac('sha256', pin.encode(), salt, 100000)` modelled as a
free constructor: distinct (pin, salt, iteration) triples give distinct
digests (collision-freeness idealisation). -/
inductive PinDigest where
  | pbkdf2HmacSha256 : String → Nat → Nat → PinDigest
deriving DecidableEq

/-- The record pickled to `quick_pin.pkl` (face_auth.py lines 173-177). -/
structure PinRecord where
  pin_hash : PinDigest
  salt : Nat
  created_at : String
deriving DecidableEq

/-- The mutable state of a `FaceAuthenticator` instance (face_auth.py lines
39-76), including the persisted PIN file and the append-only auth log.
`face_recognition_available` models the module-level
`FACE_RECOGNITION_AVAILABLE` flag. -/
structure FaceAuthState where
  min_confidence_threshold : ℚ
  face_only_threshold : ℚ
  max_attempts : Int
  current_attempt : Int
  liveness_enabled : Bool
  blink_counter : Int
  blinks_required : Int
  liveness_verified : Bool
  last_ear : ℚ
  ear_threshold : ℚ
  blink_state : BlinkState
  pin_enabled : Bool
  pin_file : Option PinRecord
  known_face_count : Nat
  face_recognition_available : Bool
  auth_log : List AuditEntry
deriving DecidableEq

/-- `set_blinks_required` (face_auth.py lines 147-150):
`self.blinks_required = max(1, min(5, count))`, then settings are saved. -/
def set_blinks_required (s : FaceAuthState) (count : Int) : FaceAuthState :=
  { s with blinks_required := max 1 (min 5 count) }

/-- `is_registered` (face_auth.py lines 346-348). -/
def is_registered (s : FaceAuthState) : Bool :=
  decide (0 < s.known_face_count) && s.face_recognition_available

/-- `is_liveness_verified` (face_auth.py lines 320-322). -/
def is_liveness_verified (s : FaceAuthState) : Bool :=
  !s.liveness_enabled || s.liveness_verified

/-- `is_locked_out` (face_auth.py lines 494-496). -/
def is_locked_out (s : FaceAuthState) : Bool :=
  decide (s.max_attempts ≤ s.current_attempt)

/-- `reset_liveness` (face_auth.py lines 313-318). -/
def reset_liveness (s : FaceAuthState) : FaceAuthState :=
  { s with blink_counter := 0, liveness_verified := false,
           blink_state := BlinkState.opened, last_ear := 1 }

/-- `reset_attempts` (face_auth.py lines 489-492). -/
def reset_attempts (s : FaceAuthState) : FaceAuthState :=
  reset_liveness { s with current_attempt := 0 }

/-- `check_liveness_frame` (face_auth.py lines 249-311): guard branches for
liveness-disabled, already-verified and module-unavailable; then the blink
state machine on the averaged eye-aspect-ratio, verification once the counter
reaches `blinks_required`, and fail-open on a processing error. -/
def check_liveness_frame (s : FaceAuthState) (obs : LivenessObs) :
    FaceAuthState × Bool × Int × LivenessMsg :=
  if !s.liveness_enabled then
    (s, true, 0, LivenessMsg.livenessDisabled)
  else if s.liveness_verified then
    (s, true, s.blink_counter, LivenessMsg.alreadyVerified)
  else if !s.face_recognition_available then
    (s, true, 0, LivenessMsg.skipped)
  else
    match obs with
    | LivenessObs.procError e => (s, true, 0, LivenessMsg.skippedError e)
    | LivenessObs.noFace => (s, false, s.blink_counter, LivenessMsg.noFaceForLiveness)
    | LivenessObs.eyesNotDetected =>
        (s, false, s.blink_counter, LivenessMsg.eyesNotDetected)
    | LivenessObs.earFrame left_ear right_ear =>
        let avg_ear := (left_ear + right_ear) / 2
        let s1 :=
          if avg_ear < s.ear_threshold then
            (if s.blink_state = BlinkState.opened then
              { s with blink_state := BlinkState.closed } else s)
          else
            (if s.blink_state = BlinkState.closed then
              { s with blink_counter := s.blink_counter + 1,
                       blink_state := BlinkState.opened } else s)
        let s2 := { s1 with last_ear := avg_ear }
        if s2.blinks_required ≤ s2.blink_counter then
          ({ s2 with liveness_verified := true }, true, s2.blink_counter,
            LivenessMsg.verifiedBlinks s2.blink_counter)
        else
          (s2, false, s2.blink_counter,
            LivenessMsg.blinkMore (s2.blinks_required - s2.blink_counter))

/-- Folding `check_liveness_frame` over a sequence of frame observations,
keeping the evolving authenticator state. -/
def run_liveness (s : FaceAuthState) (frames : List LivenessObs) : FaceAuthState :=
  frames.foldl (fun st o => (check_liveness_frame st o).1) s

/-- Python's `str.isdigit` restricted to ASCII input: nonempty and every
character a decimal digit (face_auth.py line 162). -/
def str_isdigit (s : String) : Bool :=
  !s.isEmpty && s.toList.all Char.isDigit

/-- `setup_quick_pin` (face_auth.py lines 154-188).  `salt` stands for the
`os.urandom(16)` draw and `now` for `datetime.now().isoformat()`, both inputs
from the environment.  Returns the new state with the `(success, message)`
pair; on a validation failure no state is written. -/
def setup_quick_pin (s : FaceAuthState) (pin : String) (salt : Nat) (now : String) :
    FaceAuthState × Bool × String :=
  if !str_isdigit pin then
    (s, false, "PIN must contain only digits")
  else if pin.length < 4 ∨ 6 < pin.length then
    (s, false, "PIN must be 4-6 digits")
  else
    let record : PinRecord :=
      ⟨PinDigest.pbkdf2HmacSha256 pin salt 100000, salt, now⟩
    ({ s with pin_file := some record, pin_enabled := true },
      true, "Quick PIN setup successfully!")

/-- `verify_pin` (face_auth.py lines 190-212): fails when the PIN is not
enabled or no PIN file exists; otherwise recomputes the salted hash at 100000
iterations and compares. -/
def verify_pin (s : FaceAuthState) (pin : String) : Bool × String :=
  match s.pin_file with
  | none => (false, "Quick PIN not enabled")
  | some data =>
      if !s.pin_enabled then (false, "Quick PIN not enabled")
      else if PinDigest.pbkdf2HmacSha256 pin data.salt 100000 = data.pin_hash then
        (true, "PIN verified!")
      else (false, "Incorrect PIN")

/-- The message component of `verify_face_from_frame`'s result, one
constructor per return site (face_auth.py lines 412-469). -/
inductive VerifyMsg where
  | notAvailable
  | noFaceRegistered
  | liveness : LivenessMsg → VerifyMsg
  | detectError : String → VerifyMsg
  | verifiedPinUnlock : ℚ → VerifyMsg
  | verified : ℚ → VerifyMsg
  | lowConfidence : ℚ → ℚ → Int → VerifyMsg
deriving DecidableEq

/-- The `(success, confidence, message, can_use_pin)` tuple returned by
`verify_face_from_frame`. -/
structure VerifyResult where
  success : Bool
  confidence : ℚ
  msg : VerifyMsg
  can_use_pin : Bool
deriving DecidableEq

/-- `confidence = max(0, min(100, (1 - best_distance) * 100))`
(face_auth.py lines 440-441). -/
def confidence_of (best_distance : ℚ) : ℚ :=
  max 0 (min 100 ((1 - best_distance) * 100))

/-- The tail of `verify_face_from_frame` after the liveness gate
(face_auth.py lines 431-469): detection/encoding, confidence computation, the
PIN fast-path conjunction (lines 447-451), the `_log_attempt` append (line
454), and the success / failure branches with their attempt-counter
updates. -/
def verify_face_after_liveness (s : FaceAuthState) (detect : DetectResult) :
    FaceAuthState × VerifyResult :=
  match detect with
  | DetectResult.err e => (s, ⟨false, 0, VerifyMsg.detectError e, false⟩)
  | DetectResult.ok best_distance =>
      let confidence := confidence_of best_distance
      let threshold_percent := s.min_confidence_threshold * 100
      let face_only_percent := s.face_only_threshold * 100
      let can_use_pin :=
        decide (face_only_percent ≤ confidence) &&
        is_liveness_verified s && s.pin_enabled
      let success := decide (threshold_percent ≤ confidence)
      let entry : AuditEntry := ⟨success, confidence, threshold_percent, can_use_pin⟩
      let logged := { s with auth_log := s.auth_log ++ [entry] }
      if threshold_percent ≤ confidence then
        ({ logged with current_attempt := 0 },
          ⟨true, confidence,
            if can_use_pin then VerifyMsg.verifiedPinUnlock confidence
            else VerifyMsg.verified confidence, can_use_pin⟩)
      else
        ({ logged with current_attempt := logged.current_attempt + 1 },
          ⟨false, confidence,
            VerifyMsg.lowConfidence confidence threshold_percent
              (max 0 (logged.max_attempts - (logged.current_attempt + 1))),
            false⟩)

/-- `verify_face_from_frame` (face_auth.py lines 412-469): availability and
registration guards, then the liveness gate (lines 426-429) — run only while
liveness is enabled and not yet verified — and finally the matching tail.
Note: the function performs no lockout check. -/
def verify_face_from_frame (s : FaceAuthState) (obs : FrameObs) :
    FaceAuthState × VerifyResult :=
  if !s.face_recognition_available then
    (s, ⟨false, 0, VerifyMsg.notAvailable, false⟩)
  else if !is_registered s then
    (s, ⟨false, 0, VerifyMsg.noFaceRegistered, false⟩)
  else if s.liveness_enabled && !s.liveness_verified then
    let r := check_liveness_frame s obs.liveness
    if !r.2.1 then (r.1, ⟨false, 0, VerifyMsg.liveness r.2.2.2, false⟩)
    else verify_face_after_liveness r.1 obs.detect
  else verify_face_after_liveness s obs.detect

/-- Outcome of the GUI's `verify_face` handler (gui_app.py lines 529-566),
abstracting the dialogs: locked out (the matcher is not invoked), no camera
frame available, or the result of `verify_face_from_frame`. -/
inductive GuiVerifyOutcome where
  | lockedOut
  | noFrame
  | result : FaceAuthState → VerifyResult → GuiVerifyOutcome
deriving DecidableEq

/-- The GUI's `verify_face` handler (gui_app.py lines 529-566): it checks
`is_locked_out` first and returns without calling `verify_face_from_frame`
when locked out; otherwise it requires a current frame and delegates to
`verify_face_from_frame`. -/
def gui_verify_face (s : FaceAuthState) (frame : Option FrameObs) :
    GuiVerifyOutcome :=
  if is_locked_out s then GuiVerifyOutcome.lockedOut
  else
    match frame with
    | none => GuiVerifyOutcome.noFrame
    | some obs =>
        let p := verify_face_from_frame s obs
        GuiVerifyOutcome.result p.1 p.2

/-- C8: a processing error while evaluating a liveness frame makes
`check_liveness_frame` report verified (fail open), whatever the authenticator
state. -/
theorem liveness_fails_open (s : FaceAuthState) (e : String) :
    (check_liveness_frame s (LivenessObs.procError e)).2.1 = true := by
  unfold check_liveness_frame
  split_ifs <;> rfl

/-- C9: `setup_quick_pin "12"` fails with the length error and
`setup_quick_pin "12a4"` with the non-digit error, both leaving the state
untouched; `setup_quick_pin "1234"` succeeds, after which `verify_pin "1234"`
succeeds and `verify_pin "9999"` fails with the incorrect-PIN result (a value,
not an exception). -/
theorem pin_setup_verify_spec (s : FaceAuthState) (salt : Nat) (now : String) :
    setup_quick_pin s "12" salt now = (s, false, "PIN must be 4-6 digits") ∧
    setup_quick_pin s "12a4" salt now = (s, false, "PIN must contain only digits") ∧
    (setup_quick_pin s "1234" salt now).2.1 = true ∧
    verify_pin (setup_quick_pin s "1234" salt now).1 "1234" = (true, "PIN verified!") ∧
    verify_pin (setup_quick_pin s "1234" salt now).1 "9999" = (false, "Incorrect PIN") := by
  refine ⟨rfl, rfl, rfl, ?_, ?_⟩ <;>
    simp +decide [setup_quick_pin, verify_pin, str_isdigit]

/-- C10: `set_blinks_required` stores the clamp of its argument to `[1, 5]`,
so the stored requirement always lies between 1 and 5. -/
theorem set_blinks_required_clamps (s : FaceAuthState) (n : Int) :
    (set_blinks_required s n).blinks_required = max 1 (min 5 n) ∧
    1 ≤ (set_blinks_required s n).blinks_required ∧
    (set_blinks_required s n).blinks_required ≤ 5 := by
  refine ⟨rfl, ?_, ?_⟩ <;> simp [set_blinks_required]

/-- An open-eyes frame seen while the blink state is `opened` leaves the blink
machine unchanged apart from `last_ear`, and does not verify while the counter
is below the requirement. -/
theorem check_ear_open_of_opened (s : FaceAuthState) (l r : ℚ)
    (hen : s.liveness_enabled = true) (hnv : s.liveness_verified = false)
    (hav : s.face_recognition_available = true)
    (hst : s.blink_state = BlinkState.opened)
    (hth : s.ear_threshold ≤ (l + r) / 2)
    (hlt : s.blink_counter < s.blinks_required) :
    check_liveness_frame s (LivenessObs.earFrame l r) =
      ({ s with last_ear := (l + r) / 2 }, false, s.blink_counter,
        LivenessMsg.blinkMore (s.blinks_required - s.blink_counter)) := by
  simp [check_liveness_frame, hen, hnv, hav, hst, not_lt.mpr hth, not_le.mpr hlt]

/-- A closed-eyes frame seen while the blink state is `opened` records the
eye-close transition without incrementing the counter. -/
theorem check_ear_close_of_opened (s : FaceAuthState) (l r : ℚ)
    (hen : s.liveness_enabled = true) (hnv : s.liveness_verified = false)
    (hav : s.face_recognition_available = true)
    (hst : s.blink_state = BlinkState.opened)
    (hth : (l + r) / 2 < s.ear_threshold)
    (hlt : s.blink_counter < s.blinks_required) :
    check_liveness_frame s (LivenessObs.earFrame l r) =
      ({ s with blink_state := BlinkState.closed, last_ear := (l + r) / 2 },
        false, s.blink_counter,
        LivenessMsg.blinkMore (s.blinks_required - s.blink_counter)) := by
  simp [check_liveness_frame, hen, hnv, hav, hst, hth, not_le.mpr hlt]

/-- A closed-eyes frame seen while the blink state is already `closed` is a
no-op on the machine apart from `last_ear` (no double counting on sustained
closure). -/
theorem check_ear_closed_sustained (s : FaceAuthState) (l r : ℚ)
    (hen : s.liveness_enabled = true) (hnv : s.liveness_verified = false)
    (hav : s.face_recognition_available = true)
    (hst : s.blink_state = BlinkState.closed)
    (hth : (l + r) / 2 < s.ear_threshold)
    (hlt : s.blink_counter < s.blinks_required) :
    check_liveness_frame s (LivenessObs.earFrame l r) =
      ({ s with last_ear := (l + r) / 2 }, false, s.blink_counter,
        LivenessMsg.blinkMore (s.blinks_required - s.blink_counter)) := by
  simp [check_liveness_frame, hen, hnv, hav, hst, hth, not_le.mpr hlt]

/-- An open-eyes frame seen while the blink state is `closed` completes a
blink: the counter goes up by exactly one, and the session becomes verified
exactly when the new count reaches the requirement. -/
theorem check_ear_closed_blink (s : FaceAuthState) (l r : ℚ)
    (hen : s.liveness_enabled = true) (hnv : s.liveness_verified = false)
    (hav : s.face_recognition_available = true)
    (hst : s.blink_state = BlinkState.closed)
    (hth : s.ear_threshold ≤ (l + r) / 2) :
    ((check_liveness_frame s (LivenessObs.earFrame l r)).1).blink_counter
        = s.blink_counter + 1 ∧
    ((check_liveness_frame s (LivenessObs.earFrame l r)).1).liveness_verified
        = decide (s.blinks_required ≤ s.blink_counter + 1) := by
  simp only [check_liveness_frame, hen, hnv, hav, hst, Bool.not_true,
    Bool.false_eq_true, if_false, not_lt.mpr hth]
  split_ifs with h <;> simp_all

/-- C6: from an eyes-open, not-yet-verified state with the counter below the
requirement, the openness sequence `[open, closed, open]` increments the blink
counter by exactly 1, and `[open, closed, closed, open]` also increments it by
exactly 1 (no double counting on sustained closure); after the final blink the
session is verified exactly when the counter reached `blinks_required`; and a
verified session answers every further frame with the same state, verified
result and blink count, without reprocessing the frame. -/
theorem blink_counting_spec (s t : FaceAuthState) (obs : LivenessObs) (eo ec : ℚ)
    (hen : s.liveness_enabled = true) (hnv : s.liveness_verified = false)
    (hav : s.face_recognition_available = true)
    (hst : s.blink_state = BlinkState.opened)
    (hlt : s.blink_counter < s.blinks_required)
    (ho : s.ear_threshold ≤ eo) (hc : ec < s.ear_threshold)
    (hten : t.liveness_enabled = true) (htv : t.liveness_verified = true) :
    (run_liveness s [LivenessObs.earFrame eo eo, LivenessObs.earFrame ec ec,
        LivenessObs.earFrame eo eo]).blink_counter = s.blink_counter + 1 ∧
    (run_liveness s [LivenessObs.earFrame eo eo, LivenessObs.earFrame ec ec,
        LivenessObs.earFrame ec ec, LivenessObs.earFrame eo eo]).blink_counter
      = s.blink_counter + 1 ∧
    (run_liveness s [LivenessObs.earFrame eo eo, LivenessObs.earFrame ec ec,
        LivenessObs.earFrame eo eo]).liveness_verified
      = decide (s.blinks_required ≤ s.blink_counter + 1) ∧
    check_liveness_frame t obs = (t, true, t.blink_counter,
      LivenessMsg.alreadyVerified) := by
  have havg : ((eo : ℚ) + eo) / 2 = eo := by ring
  have hA := check_ear_open_of_opened s eo eo hen hnv hav hst (by linarith) hlt
  have hB := check_ear_close_of_opened { s with last_ear := (eo + eo) / 2 }
    ec ec hen hnv hav hst (by simpa [havg] using (by linarith : (ec + ec) / 2 < s.ear_threshold)) hlt
  have hB' := check_ear_closed_sustained
    { s with blink_state := BlinkState.closed, last_ear := (ec + ec) / 2 }
    ec ec hen hnv hav rfl (by simpa using (by linarith : (ec + ec) / 2 < s.ear_threshold)) hlt
  have hC := check_ear_closed_blink
    { s with blink_state := BlinkState.closed, last_ear := (ec + ec) / 2 }
    eo eo hen hnv hav rfl (by simpa using (by linarith : s.ear_threshold ≤ (eo + eo) / 2))
  refine ⟨?_, ?_, ?_, ?_⟩
  · simp only [run_liveness, List.foldl, hA, hB]
    exact hC.1
  · simp only [run_liveness, List.foldl, hA, hB, hB']
    exact hC.1
  · simp only [run_liveness, List.foldl, hA, hB]
    exact hC.2
  · simp [check_liveness_frame, hten, htv]

/-- A fresh authenticator at the default settings (face_auth.py lines 56-71)
with one registered face sample: liveness enabled, two blinks required, eyes
open, no blinks yet. -/
def freshLivenessState : FaceAuthState :=
  ⟨6/10, 8/10, 3, 0, true, 0, 2, false, 1, 11/50, BlinkState.opened, false,
    none, 1, true, []⟩

/-- `freshLivenessState` after a completed liveness session: two blinks
counted and the verified flag set. -/
def verifiedLivenessState : FaceAuthState :=
  { freshLivenessState with blink_counter := 2, liveness_verified := true }

/-- Witness for C6: `blink_counting_spec` applied at `freshLivenessState`
(counter 0, two blinks required, EAR threshold 0.22) with openness metric
0.3 for open eyes and 0.1 for closed eyes, and at `verifiedLivenessState` for
the already-verified conjunct. -/
theorem blink_counting_spec_witness :
    (run_liveness freshLivenessState [LivenessObs.earFrame (3/10) (3/10),
        LivenessObs.earFrame (1/10) (1/10), LivenessObs.earFrame (3/10) (3/10)]).blink_counter
      = freshLivenessState.blink_counter + 1 ∧
    (run_liveness freshLivenessState [LivenessObs.earFrame (3/10) (3/10),
        LivenessObs.earFrame (1/10) (1/10), LivenessObs.earFrame (1/10) (1/10),
        LivenessObs.earFrame (3/10) (3/10)]).blink_counter
      = freshLivenessState.blink_counter + 1 ∧
    (run_liveness freshLivenessState [LivenessObs.earFrame (3/10) (3/10),
        LivenessObs.earFrame (1/10) (1/10), LivenessObs.earFrame (3/10) (3/10)]).liveness_verified
      = decide (freshLivenessState.blinks_required ≤ freshLivenessState.blink_counter + 1) ∧
    check_liveness_frame verifiedLivenessState LivenessObs.noFace =
      (verifiedLivenessState, true, verifiedLivenessState.blink_counter,
        LivenessMsg.alreadyVerified) :=
  blink_counting_spec freshLivenessState verifiedLivenessState LivenessObs.noFace
    (3/10) (1/10) rfl rfl rfl rfl (by decide)
    (by norm_num [freshLivenessState]) (by norm_num [freshLivenessState]) rfl rfl

/-- An authenticator that has exhausted its attempts: `current_attempt` equals
`max_attempts = 3`.  Liveness is disabled and one face sample is enrolled. -/
def lockedOutState : FaceAuthState :=
  ⟨6/10, 8/10, 3, 3, false, 0, 2, false, 1, 11/50, BlinkState.opened, false,
    none, 1, true, []⟩

/-- A frame whose enrolled-face distance is 0 (a perfect match). -/
def perfectMatchFrame : FrameObs := ⟨LivenessObs.noFace, DetectResult.ok 0⟩

/-- C3 counterexample: with the authenticator locked out
(`is_locked_out = true`), a direct call to `verify_face_from_frame` on a
perfect-match frame is not rejected — the matcher runs, the call succeeds, and
it even resets the failure counter to zero. -/
theorem verify_face_ignores_lockout :
    is_locked_out lockedOutState = true ∧
    (verify_face_from_frame lockedOutState perfectMatchFrame).2.success = true ∧
    ((verify_face_from_frame lockedOutState perfectMatchFrame).1).current_attempt = 0 := by
  refine ⟨by decide, ?_, ?_⟩ <;>
    norm_num [verify_face_from_frame, verify_face_after_liveness, lockedOutState,
      perfectMatchFrame, is_registered, is_liveness_verified, confidence_of]

/-- C3 amended: the immediate rejection while locked out is enforced by the
GUI's `verify_face` handler, which checks `is_locked_out` first and returns
without invoking `verify_face_from_frame`; an explicit `reset_attempts` (with
a positive `max_attempts`) clears the locked-out state. -/
theorem lockout_enforced_by_caller (s t : FaceAuthState) (frame : Option FrameObs)
    (hlock : is_locked_out s = true) (hmax : 0 < t.max_attempts) :
    gui_verify_face s frame = GuiVerifyOutcome.lockedOut ∧
    is_locked_out (reset_attempts t) = false := by
  constructor
  · simp [gui_verify_face, hlock]
  · simp only [is_locked_out, reset_attempts, reset_liveness,
      decide_eq_false_iff_not]
    omega

/-- Witness for C3: `lockout_enforced_by_caller` applied at `lockedOutState`
(3 failures out of a maximum of 3) with no frame. -/
theorem lockout_enforced_by_caller_witness :
    is_locked_out lockedOutState = true ∧
    0 < lockedOutState.max_attempts ∧
    gui_verify_face lockedOutState none = GuiVerifyOutcome.lockedOut ∧
    is_locked_out (reset_attempts lockedOutState) = false :=
  ⟨by decide, by decide,
    (lockout_enforced_by_caller lockedOutState lockedOutState none
      (by decide) (by decide)).1,
    (lockout_enforced_by_caller lockedOutState lockedOutState none
      (by decide) (by decide)).2⟩


/-- For an evaluation that reaches the confidence computation, the returned
`can_use_pin` flag is the conjunction of the fast-path conditions (evaluated on
the state the flag is computed from) with the match itself succeeding; the
liveness-verified status is unchanged by the matching tail. -/
theorem after_liveness_pin_gate (t : FaceAuthState) (d : ℚ) :
    ((verify_face_after_liveness t (DetectResult.ok d)).2.can_use_pin = true ↔
      (t.face_only_threshold * 100 ≤ confidence_of d ∧
       is_liveness_verified ((verify_face_after_liveness t (DetectResult.ok d)).1) = true ∧
       t.pin_enabled = true ∧
       t.min_confidence_threshold * 100 ≤ confidence_of d)) := by
  by_cases h : t.min_confidence_threshold * 100 ≤ confidence_of d
  · simp [verify_face_after_liveness, h, is_liveness_verified, and_assoc]
  · simp [verify_face_after_liveness, h, is_liveness_verified]

/-- `check_liveness_frame` never changes the thresholds, the PIN flag or the
liveness-enabled flag. -/
theorem check_liveness_preserves_config (s : FaceAuthState) (obs : LivenessObs) :
    ((check_liveness_frame s obs).1).min_confidence_threshold = s.min_confidence_threshold ∧
    ((check_liveness_frame s obs).1).face_only_threshold = s.face_only_threshold ∧
    ((check_liveness_frame s obs).1).pin_enabled = s.pin_enabled ∧
    ((check_liveness_frame s obs).1).liveness_enabled = s.liveness_enabled := by
  rcases obs <;> simp only [check_liveness_frame] <;> split_ifs <;> simp_all

/-- When `check_liveness_frame` reports not-live on a liveness-enabled state,
the resulting state is not liveness-verified. -/
theorem check_liveness_not_live (s : FaceAuthState) (obs : LivenessObs)
    (hen : s.liveness_enabled = true)
    (h : (check_liveness_frame s obs).2.1 = false) :
    is_liveness_verified ((check_liveness_frame s obs).1) = false := by
  rcases obs <;> simp only [check_liveness_frame] at h ⊢ <;>
    split_ifs at h ⊢ <;> simp_all [is_liveness_verified]

/-- C7 amended: for every match evaluation in which a face is detected and
encoded (so a confidence is computed), the returned `can_use_pin` flag is true
iff confidence >= pin-unlock threshold AND liveness is verified (in the
resulting state) AND PIN is enabled AND additionally the match itself
succeeded (confidence >= the minimum confidence threshold); when the match
fails the flag is false even if the three fast-path conditions hold. -/
theorem can_use_pin_gating (s : FaceAuthState) (obs : FrameObs) (d : ℚ)
    (hav : s.face_recognition_available = true)
    (hreg : 0 < s.known_face_count)
    (hdet : obs.detect = DetectResult.ok d) :
    ((verify_face_from_frame s obs).2.can_use_pin = true ↔
      (s.face_only_threshold * 100 ≤ confidence_of d ∧
       is_liveness_verified ((verify_face_from_frame s obs).1) = true ∧
       s.pin_enabled = true ∧
       s.min_confidence_threshold * 100 ≤ confidence_of d)) := by
  have hr : is_registered s = true := by simp [is_registered, hav, hreg]
  by_cases hgate : s.liveness_enabled = true ∧ s.liveness_verified = false
  · by_cases hlive : (check_liveness_frame s obs.liveness).2.1 = true
    · have e : verify_face_from_frame s obs =
          verify_face_after_liveness (check_liveness_frame s obs.liveness).1 obs.detect := by
        simp [verify_face_from_frame, hav, hr, hgate.1, hgate.2, hlive]
      rw [e, hdet]
      have hp := check_liveness_preserves_config s obs.liveness
      rw [after_liveness_pin_gate, hp.1, hp.2.1, hp.2.2.1]
    · have hlf : (check_liveness_frame s obs.liveness).2.1 = false := by
        simpa using hlive
      have e : verify_face_from_frame s obs =
          ((check_liveness_frame s obs.liveness).1,
            ⟨false, 0, VerifyMsg.liveness (check_liveness_frame s obs.liveness).2.2.2,
              false⟩) := by
        simp [verify_face_from_frame, hav, hr, hgate.1, hgate.2, hlf]
      have hnl := check_liveness_not_live s obs.liveness hgate.1 hlf
      rw [e]
      simp [hnl]
  · have hg : (s.liveness_enabled && !s.liveness_verified) = false := by
      rcases h1 : s.liveness_enabled <;> rcases h2 : s.liveness_verified <;>
        simp_all
    have e : verify_face_from_frame s obs = verify_face_after_liveness s obs.detect := by
      simp [verify_face_from_frame, hav, hr, hg]
    rw [e, hdet, after_liveness_pin_gate]

/-- An authenticator whose minimum confidence threshold has been raised to the
Maximum level (0.90, `set_security_level(SECURITY_MAXIMUM)`) while the PIN
unlock threshold stays at the default 0.80; PIN is enabled, liveness disabled,
one face sample enrolled. -/
def strictThresholdState : FaceAuthState :=
  ⟨9/10, 8/10, 3, 0, false, 0, 2, false, 1, 11/50, BlinkState.opened, true,
    some ⟨PinDigest.pbkdf2HmacSha256 "1234" 0 100000, 0, "2026-01-01"⟩,
    1, true, []⟩

/-- A frame whose enrolled-face distance is 0.15, giving confidence 85. -/
def midConfidenceFrame : FrameObs := ⟨LivenessObs.noFace, DetectResult.ok (3/20)⟩

/-- C7 counterexample: at confidence 85 with threshold 90 and PIN-unlock
threshold 80, all three fast-path conditions hold — confidence is at least the
PIN-unlock threshold, liveness is verified, PIN is enabled — yet the returned
`can_use_pin` flag is false (the failure branch returns a literal `False`), so
the claimed equivalence fails. -/
theorem can_use_pin_not_iff :
    (verify_face_from_frame strictThresholdState midConfidenceFrame).2.confidence = 85 ∧
    strictThresholdState.face_only_threshold * 100 ≤ confidence_of (3/20) ∧
    is_liveness_verified
      ((verify_face_from_frame strictThresholdState midConfidenceFrame).1) = true ∧
    strictThresholdState.pin_enabled = true ∧
    (verify_face_from_frame strictThresholdState midConfidenceFrame).2.can_use_pin
      = false := by
  refine ⟨?_, ?_, ?_, rfl, ?_⟩ <;>
    norm_num [verify_face_from_frame, verify_face_after_liveness,
      strictThresholdState, midConfidenceFrame, is_registered,
      is_liveness_verified, confidence_of]

/-- An authenticator at the default thresholds (0.60 minimum, 0.80 PIN
unlock) with PIN enabled, liveness disabled and one face sample enrolled. -/
def defaultAuthState : FaceAuthState :=
  ⟨6/10, 8/10, 3, 0, false, 0, 2, false, 1, 11/50, BlinkState.opened, true,
    some ⟨PinDigest.pbkdf2HmacSha256 "1234" 0 100000, 0, "2026-01-01"⟩,
    1, true, []⟩

/-- Witness for C7: `can_use_pin_gating` applied at `defaultAuthState` and a
perfect-match frame (distance 0). -/
theorem can_use_pin_gating_witness :
    defaultAuthState.face_recognition_available = true ∧
    0 < defaultAuthState.known_face_count ∧
    perfectMatchFrame.detect = DetectResult.ok 0 ∧
    ((verify_face_from_frame defaultAuthState perfectMatchFrame).2.can_use_pin = true ↔
      (defaultAuthState.face_only_threshold * 100 ≤ confidence_of 0 ∧
       is_liveness_verified
         ((verify_face_from_frame defaultAuthState perfectMatchFrame).1) = true ∧
       defaultAuthState.pin_enabled = true ∧
       defaultAuthState.min_confidence_threshold * 100 ≤ confidence_of 0)) :=
  ⟨rfl, by decide, rfl,
    can_use_pin_gating defaultAuthState perfectMatchFrame 0 rfl (by decide) rfl⟩
